import Mathlib

/-!
# Verification of the Civic-Hunter dashboard's server core

A shallow embedding, in Lean 4, of the algorithmic core of the
Civic-Hunter repository: the hotspot clusterer
(`performAlgorithmicAnalysis` in `src/server/index.js` and
`performLocalAnalysis` in `src/services/dataService.ts`), the priority
scorers (`calculatePriority`, `calculateChicagoCrimePriority`,
`calculateCrashPriority`, `calculateEvansvilleCrimePriority`), the
source adapters' row mappings, the incident aggregation endpoint and the
radio-stream endpoint.

Modelling conventions:
* JavaScript numbers are embedded as exact rationals (`ℚ`); `NaN` and
  `undefined`/`null` number fields are `Option ℚ` with `none`.
  `Math.round` rounds half toward positive infinity, which is
  `⌊q + 1/2⌋`.
* JavaScript truthiness on a number is `≠ 0` (with `none` falsy);
  `a || b` on numbers and strings is modelled by the `jsOr*` helpers
  (`0`, `""`, `null` and `undefined` all select the default).
* `Math.random()`-derived fields (`viewers`, `listeners`) are modelled
  by an oracle parameter `ℕ → ℤ` indexed by position.
* `Array.prototype.sort` with the comparator `(a, b) => b.f - a.f` is a
  stable descending sort; it is embedded as a stable insertion sort
  `sortByDesc`.
* JavaScript object literals keyed by grid-cell strings preserve
  insertion order for these (non-index) keys; they are embedded as
  association lists updated by `upsert`, which appends new keys at the
  end.
* Timestamps (`Date.now()`, `new Date(...)`) are epoch milliseconds,
  passed explicitly as an `ℤ` parameter where the code reads the clock;
  the `analyzedAt` response field (a wall-clock string) is omitted.
-/

namespace CivicHunter

/-! ## JavaScript primitive models -/

/-- JS `Math.round`: round half toward +∞. -/
def jsRound (q : ℚ) : ℤ := ⌊q + 1/2⌋

/-- JS truthiness of a possibly-absent number: `undefined`, `null`, `0`
(and `NaN`, modelled as `none`) are falsy. -/
def truthyQ (o : Option ℚ) : Bool :=
  match o with
  | some x => decide (x ≠ 0)
  | none => false

/-- JS `x || d` on a possibly-absent number. -/
def jsOrQ (o : Option ℚ) (d : ℚ) : ℚ :=
  match o with
  | some x => if x = 0 then d else x
  | none => d

/-- JS `x || null` on a possibly-absent number (`parseFloat(s) || null`). -/
def jsOrNullQ (o : Option ℚ) : Option ℚ :=
  match o with
  | some x => if x = 0 then none else some x
  | none => none

/-- JS `s || d` on a possibly-absent string: `undefined` and `""` are falsy. -/
def jsOrS (o : Option String) (d : String) : String :=
  match o with
  | some s => if s = "" then d else s
  | none => d

/-- JS `x > d` on a possibly-absent number (`undefined > d` is false). -/
def jsGtQ (o : Option ℚ) (d : ℚ) : Bool :=
  match o with
  | some x => decide (d < x)
  | none => false

/-- JS `parseInt(x) > d` where `x` may fail to parse (`NaN > d` is false). -/
def jsGtZ (o : Option ℤ) (d : ℤ) : Bool :=
  match o with
  | some x => decide (d < x)
  | none => false

/-- JS `s.includes(t)`: substring containment. -/
def jsIncludes (s t : String) : Bool := decide (t.data <:+: s.data)

/-- JS `s.toLowerCase()` (ASCII, as the keyword tables need). -/
def jsToLower (s : String) : String := ⟨s.data.map Char.toLower⟩

/-! ## Stable descending sort

`array.sort((a, b) => b.f - a.f)` in a modern engine is a stable sort
putting larger `f` first; `insertDesc` places `x` before the first
element whose key is not larger, which is the same stable order. -/

/-- Insert `x` into a descending-sorted list, after all strictly larger
keys and before all equal-or-smaller ones. -/
def insertDesc {α β : Type*} [LinearOrder β] (f : α → β) (x : α) : List α → List α
  | [] => [x]
  | y :: ys => if f x < f y then y :: insertDesc f x ys else x :: y :: ys

/-- Stable descending insertion sort by the key `f`. -/
def sortByDesc {α β : Type*} [LinearOrder β] (f : α → β) : List α → List α
  | [] => []
  | x :: xs => insertDesc f x (sortByDesc f xs)

/-- The list `l` is sorted with keys `f` descending. -/
def SortedDescBy {α β : Type*} [LinearOrder β] (f : α → β) (l : List α) : Prop :=
  l.Pairwise (fun a b => f b ≤ f a)

theorem insertDesc_perm {α β : Type*} [LinearOrder β] (f : α → β) (x : α) (l : List α) :
    (insertDesc f x l).Perm (x :: l) := by
  induction l with
  | nil => exact List.Perm.refl _
  | cons y ys ih =>
    unfold insertDesc
    split
    · exact (ih.cons y).trans (List.Perm.swap x y ys)
    · exact List.Perm.refl _

theorem sortByDesc_perm {α β : Type*} [LinearOrder β] (f : α → β) (l : List α) :
    (sortByDesc f l).Perm l := by
  induction l with
  | nil => exact List.Perm.refl _
  | cons x xs ih => exact (insertDesc_perm f x (sortByDesc f xs)).trans (ih.cons x)

theorem mem_sortByDesc {α β : Type*} [LinearOrder β] {f : α → β} {l : List α} {a : α} :
    a ∈ sortByDesc f l ↔ a ∈ l :=
  (sortByDesc_perm f l).mem_iff

theorem insertDesc_pairwise {α β : Type*} [LinearOrder β] (f : α → β) (x : α) {l : List α}
    (h : SortedDescBy f l) : SortedDescBy f (insertDesc f x l) := by
  induction l with
  | nil => exact List.pairwise_singleton _ x
  | cons y ys ih =>
    rw [SortedDescBy, List.pairwise_cons] at h
    unfold insertDesc
    split
    · rename_i hlt
      rw [SortedDescBy, List.pairwise_cons]
      refine ⟨fun z hz => ?_, ih h.2⟩
      rcases List.mem_cons.mp ((insertDesc_perm f x ys).mem_iff.mp hz) with hz | hz
      · subst hz; exact le_of_lt hlt
      · exact h.1 z hz
    · rename_i hge
      rw [SortedDescBy, List.pairwise_cons]
      refine ⟨fun z hz => ?_, ?_⟩
      · rcases List.mem_cons.mp hz with hz | hz
        · subst hz; exact not_lt.mp hge
        · exact le_trans (h.1 z hz) (not_lt.mp hge)
      · exact List.pairwise_cons.mpr h

theorem sortByDesc_pairwise {α β : Type*} [LinearOrder β] (f : α → β) (l : List α) :
    SortedDescBy f (sortByDesc f l) := by
  induction l with
  | nil => exact List.Pairwise.nil
  | cons x xs ih => exact insertDesc_pairwise f x ih

/-! ## Association-list upsert

`if (!m[key]) { m[key] = fresh; } ...update m[key]...` on a JS object:
look the key up; update in place when present, append at the end when
absent.  `fresh` is the value the key receives when newly created
(creation followed by the update already applied). -/

def upsert {K C : Type*} [DecidableEq K] (k : K) (fresh : C) (upd : C → C) :
    List (K × C) → List (K × C)
  | [] => [(k, fresh)]
  | (k', c) :: rest =>
      if k' = k then (k', upd c) :: rest else (k', c) :: upsert k fresh upd rest

theorem upsert_mem_cases {K C : Type*} [DecidableEq K] (k : K) (fresh : C) (upd : C → C)
    (m : List (K × C)) (kc : K × C) (hm : kc ∈ upsert k fresh upd m) :
    (∃ c, (kc.1, c) ∈ m ∧ (kc.2 = c ∨ kc.2 = upd c)) ∨
      (kc.1 = k ∧ kc.2 = fresh ∧ ∀ c, (k, c) ∉ m) := by
  induction m with
  | nil =>
    simp only [upsert, List.mem_singleton] at hm
    subst hm
    exact Or.inr ⟨rfl, rfl, fun c hc => (List.not_mem_nil _ hc)⟩
  | cons hd tl ih =>
    obtain ⟨k', c⟩ := hd
    simp only [upsert] at hm
    split at hm
    · rename_i heq
      rcases List.mem_cons.mp hm with hm | hm
      · subst hm; exact Or.inl ⟨c, List.mem_cons_self _ _, Or.inr rfl⟩
      · exact Or.inl ⟨kc.2, List.mem_cons_of_mem _ hm, Or.inl rfl⟩
    · rename_i hne
      rcases List.mem_cons.mp hm with hm | hm
      · subst hm; exact Or.inl ⟨c, List.mem_cons_self _ _, Or.inl rfl⟩
      · rcases ih hm with h | ⟨h1, h2, h3⟩
        · obtain ⟨c₀, hc₀, hval⟩ := h
          exact Or.inl ⟨c₀, List.mem_cons_of_mem _ hc₀, hval⟩
        · refine Or.inr ⟨h1, h2, fun c₀ hc₀ => ?_⟩
          rcases List.mem_cons.mp hc₀ with hcc | hcc
          · exact hne (congrArg Prod.fst hcc).symm
          · exact h3 c₀ hcc

theorem upsert_keeps_key {K C : Type*} [DecidableEq K] (k : K) (fresh : C) (upd : C → C)
    (m : List (K × C)) (k' : K) (c : C) (hm : (k', c) ∈ m) :
    ∃ c', (k', c') ∈ upsert k fresh upd m := by
  induction m with
  | nil => exact absurd hm (List.not_mem_nil _)
  | cons hd tl ih =>
    obtain ⟨k₀, c₀⟩ := hd
    simp only [upsert]
    rcases List.mem_cons.mp hm with hh | hh
    · injection hh with h1 h2
      subst h1; subst h2
      split
      · exact ⟨upd c, List.mem_cons_self _ _⟩
      · exact ⟨c, List.mem_cons_self _ _⟩
    · split
      · exact ⟨c, List.mem_cons_of_mem _ hh⟩
      · obtain ⟨c', hc'⟩ := ih hh
        exact ⟨c', List.mem_cons_of_mem _ hc'⟩

theorem upsert_new_key {K C : Type*} [DecidableEq K] (k : K) (fresh : C) (upd : C → C)
    (m : List (K × C)) : ∃ c', (k, c') ∈ upsert k fresh upd m := by
  induction m with
  | nil => exact ⟨fresh, List.mem_singleton.mpr rfl⟩
  | cons hd tl ih =>
    obtain ⟨k₀, c₀⟩ := hd
    simp only [upsert]
    split
    · rename_i heq
      subst heq
      exact ⟨upd c₀, List.mem_cons_self _ _⟩
    · obtain ⟨c', hc'⟩ := ih
      exact ⟨c', List.mem_cons_of_mem _ hc'⟩

/-! ## The hotspot clusterer (`performAlgorithmicAnalysis`, src/server/index.js)

The records arrive in the body of `POST /api/analyze-hotspots`, so every
field is possibly absent. -/

/-- An incident record as read from the request body. -/
structure ReqIncident where
  lat : Option ℚ
  lng : Option ℚ
  priority : Option ℚ
  title : Option String
deriving DecidableEq

/-- A camera record as read from the request body. -/
structure ReqCamera where
  lat : Option ℚ
  lng : Option ℚ
  viewers : Option ℚ
deriving DecidableEq

/-- A news record as read from the request body (the clusterer receives
`news` but never reads it). -/
structure ReqNews where
  title : Option String
deriving DecidableEq

/-- One entry of `locationClusters`. -/
structure Cluster where
  incidents : List ReqIncident
  cameras : List ReqCamera
  lat : ℚ
  lng : ℚ
  totalPriority : ℚ
deriving DecidableEq

/-- The grid-cell key
`` `${Math.round(lat * 10) / 10},${Math.round(lng * 10) / 10}` ``
(as the pair of numbers: the number-to-string rendering is injective). -/
def cellKey (la lo : ℚ) : ℚ × ℚ :=
  ((jsRound (la * 10) : ℚ) / 10, (jsRound (lo * 10) : ℚ) / 10)

/-- The coordinates of an incident passing
`incident && incident.lat && incident.lng`. -/
def incCoords (i : ReqIncident) : Option (ℚ × ℚ) :=
  match i.lat, i.lng with
  | some la, some lo => if la = 0 ∨ lo = 0 then none else some (la, lo)
  | _, _ => none

/-- The coordinates and viewer count of a camera passing
`camera && camera.lat && camera.lng && camera.viewers > 50`. -/
def camCoords (c : ReqCamera) : Option (ℚ × ℚ × ℚ) :=
  match c.lat, c.lng with
  | some la, some lo =>
      if la = 0 ∨ lo = 0 then none
      else
        match c.viewers with
        | some v => if 50 < v then some (la, lo, v) else none
        | none => none
  | _, _ => none

/-- A newly created cluster `{incidents: [], cameras: [], lat, lng,
totalPriority: 0}`. -/
def emptyCluster (la lo : ℚ) : Cluster :=
  { incidents := [], cameras := [], lat := la, lng := lo, totalPriority := 0 }

/-- `cluster.incidents.push(incident); cluster.totalPriority += incident.priority || 50`. -/
def incUpd (i : ReqIncident) (c : Cluster) : Cluster :=
  { c with
    incidents := c.incidents ++ [i]
    totalPriority := c.totalPriority + jsOrQ i.priority 50 }

/-- `cluster.cameras.push(camera); cluster.totalPriority += camera.viewers`. -/
def camUpd (cam : ReqCamera) (v : ℚ) (c : Cluster) : Cluster :=
  { c with
    cameras := c.cameras ++ [cam]
    totalPriority := c.totalPriority + v }

/-- The association list standing for the `locationClusters` object. -/
abbrev ClusterMap := List ((ℚ × ℚ) × Cluster)

/-- Record one eligible incident at coordinates `(la, lo)` into the map. -/
def applyIncident (acc : ClusterMap) (i : ReqIncident) (la lo : ℚ) : ClusterMap :=
  upsert (cellKey la lo) (incUpd i (emptyCluster la lo)) (incUpd i) acc

/-- Record one eligible camera at coordinates `(la, lo)` with `v` viewers. -/
def applyCamera (acc : ClusterMap) (cam : ReqCamera) (la lo v : ℚ) : ClusterMap :=
  upsert (cellKey la lo) (camUpd cam v (emptyCluster la lo)) (camUpd cam v) acc

/-- One step of `incidents.forEach(...)`. -/
def stepIncident (acc : ClusterMap) (i : ReqIncident) : ClusterMap :=
  match incCoords i with
  | some (la, lo) => applyIncident acc i la lo
  | none => acc

/-- One step of `cameras.forEach(...)`. -/
def stepCamera (acc : ClusterMap) (c : ReqCamera) : ClusterMap :=
  match camCoords c with
  | some (la, lo, v) => applyCamera acc c la lo v
  | none => acc

/-- `locationClusters` after both passes: all incidents, then all cameras. -/
def buildClusters (incidents : List ReqIncident) (cameras : List ReqCamera) : ClusterMap :=
  cameras.foldl stepCamera (incidents.foldl stepIncident [])

/-- The per-cell intensity
`Math.min(100, cluster.totalPriority / (cluster.incidents.length + cluster.cameras.length + 1))`. -/
def clusterIntensity (c : Cluster) : ℚ :=
  min 100 (c.totalPriority / ((c.incidents.length : ℚ) + (c.cameras.length : ℚ) + 1))

/-- A hotspot in the server's response. -/
structure Hotspot where
  lat : ℚ
  lng : ℚ
  intensity : ℚ
  incidentCount : ℕ
  cameraCount : ℕ
  description : String
  topIncident : String
deriving DecidableEq

/-- The hotspot pushed for a cluster whose intensity is above 30, `none`
otherwise. -/
def toHotspot (c : Cluster) : Option Hotspot :=
  let intensity := clusterIntensity c
  if 30 < intensity then
    some
      { lat := c.lat
        lng := c.lng
        intensity := intensity
        incidentCount := c.incidents.length
        cameraCount := c.cameras.length
        description :=
          toString c.incidents.length ++ " incidents, " ++
            toString c.cameras.length ++ " active cameras"
        topIncident :=
          match c.incidents.head? with
          | some i0 => jsOrS i0.title "High camera activity"
          | none => "High camera activity" }
  else none

/-- The `hotspots` array right after the `Object.values(...).forEach` pass
(threshold applied, not yet sorted). -/
def rawHotspots (incidents : List ReqIncident) (cameras : List ReqCamera) : List Hotspot :=
  ((buildClusters incidents cameras).map Prod.snd).filterMap toHotspot

/-- The `hotspots` array after `hotspots.sort((a, b) => b.intensity - a.intensity)`. -/
def sortedHotspots (incidents : List ReqIncident) (cameras : List ReqCamera) : List Hotspot :=
  sortByDesc Hotspot.intensity (rawHotspots incidents cameras)

/-- `avgIntensity`: the mean over the whole (unsliced) hotspot list, `0`
when it is empty. -/
def avgIntensity (hs : List Hotspot) : ℚ :=
  if 0 < hs.length then (hs.foldl (fun s h => s + h.intensity) 0) / (hs.length : ℚ) else 0

/-- `threatLevel`: `'high'` over 70, `'medium'` over 40, else `'low'`. -/
def threatLevelOf (avg : ℚ) : String :=
  if 70 < avg then "high" else if 40 < avg then "medium" else "low"

/-- A correlation entry of the response. -/
structure Correlation where
  ctype : String
  description : String
  lat : ℚ
  lng : ℚ
deriving DecidableEq

/-- `hotspots.slice(0, 5).forEach(...)`: one correlation per top-5 hotspot
with both counts positive. -/
def correlationsOf (hs : List Hotspot) : List Correlation :=
  (hs.take 5).filterMap fun h =>
    if 0 < h.incidentCount ∧ 0 < h.cameraCount then
      some
        { ctype := "incident-camera"
          description :=
            "High correlation: " ++ toString h.incidentCount ++ " incidents near " ++
              toString h.cameraCount ++ " trending cameras"
          lat := h.lat
          lng := h.lng }
    else none

/-- The response of one clustering pass (`analyzedAt`, a wall-clock
string, is omitted). -/
structure AnalysisResult where
  hotspots : List Hotspot
  correlations : List Correlation
  threatLevel : String
  summary : String
deriving DecidableEq

/-- `performAlgorithmicAnalysis(incidents, cameras, news)`
(src/server/index.js, lines 1322-1414). `news` is received but unused. -/
def performAlgorithmicAnalysis (incidents : List ReqIncident) (cameras : List ReqCamera)
    (news : List ReqNews) : AnalysisResult :=
  let hs := sortedHotspots incidents cameras
  let threatLevel := threatLevelOf (avgIntensity hs)
  let correlations := correlationsOf hs
  { hotspots := hs.take 20
    correlations := correlations
    threatLevel := threatLevel
    summary :=
      "Identified " ++ toString hs.length ++ " potential hotspots. Overall threat level: " ++
        threatLevel ++ ". " ++ toString correlations.length ++
        " correlations found between camera activity and incidents." }

/-! ## The `POST /api/analyze-hotspots` handler (src/server/index.js, lines 1267-1319)

The external generative-AI call is impure; its observable outcome at the
handler is one of: no key configured (`genAI` is null), the API call
threw, the returned text had no `{...}` to match, `JSON.parse` threw, or
a parsed analysis object. -/

/-- The observable outcome of the Gemini call. -/
inductive GeminiOutcome where
  | noKey : GeminiOutcome
  | callError (message : String) : GeminiOutcome
  | noJsonMatch (text : String) : GeminiOutcome
  | parseError (text : String) : GeminiOutcome
  | parsed (analysis : AnalysisResult) : GeminiOutcome

/-- The outcomes on which the handler falls back to the local algorithm. -/
def isFallback : GeminiOutcome → Bool
  | .parsed _ => false
  | _ => true

/-- An HTTP response of the handler: `res.json(body)` or
`res.status(code).json({error})`. -/
inductive HttpResponse where
  | ok (body : AnalysisResult) : HttpResponse
  | err (status : ℕ) (message : String) : HttpResponse
deriving DecidableEq

/-- The `POST /api/analyze-hotspots` handler: a parsed Gemini analysis is
returned as-is; on every other outcome the handler falls through to
`performAlgorithmicAnalysis(incidents || [], cameras || [], news || [])`,
logging only. -/
def analyzeHotspotsHandler (g : GeminiOutcome) (incidents : Option (List ReqIncident))
    (cameras : Option (List ReqCamera)) (news : Option (List ReqNews)) : HttpResponse :=
  match g with
  | .parsed analysis => .ok analysis
  | _ => .ok (performAlgorithmicAnalysis (incidents.getD []) (cameras.getD []) (news.getD []))

/-! ## Priority scorers (src/server/index.js) -/

/-- A raw NYC 311 provider row (fields read by the adapter; numeric
strings already passed through `parseFloat`, `none` for missing or
unparseable). -/
structure NYC311Row where
  unique_key : Option String
  complaint_type : Option String
  descriptor : Option String
  incident_address : Option String
  city : Option String
  latitude : Option ℚ
  longitude : Option ℚ
  created_date : Option String
  status : Option String
deriving DecidableEq

def criticalTerms : List String :=
  ["fire", "shooting", "weapon", "gas leak", "explosion", "emergency", "assault",
    "robbery", "collapse"]

def highTerms : List String :=
  ["accident", "injury", "medical", "hazard", "dangerous"]

/-- `calculatePriority(incident)` (src/server/index.js, lines 733-752):
start from 50, +40 per matched critical term, +20 per matched high term,
+10 when status is `'Open'`, capped at 100. -/
def calculatePriority (incident : NYC311Row) : ℤ :=
  let text :=
    jsToLower (jsOrS incident.complaint_type "" ++ " " ++ jsOrS incident.descriptor "")
  let priority : ℤ := 50
  let priority :=
    criticalTerms.foldl (fun p term => if jsIncludes text term then p + 40 else p) priority
  let priority :=
    highTerms.foldl (fun p term => if jsIncludes text term then p + 20 else p) priority
  let priority := if incident.status = some "Open" then priority + 10 else priority
  min priority 100

/-- A raw Chicago crime row (fields the scorer reads; `date` is epoch
milliseconds, `none` when absent or invalid). -/
structure ChicagoCrimeRow where
  primary_type : Option String
  description : Option String
  date : Option ℤ
deriving DecidableEq

def chicagoCriticalCrimes : List String :=
  ["homicide", "criminal sexual assault", "robbery", "aggravated assault", "kidnapping",
    "arson"]

def chicagoHighCrimes : List String :=
  ["battery", "burglary", "motor vehicle theft", "weapons violation", "narcotics"]

def chicagoMediumCrimes : List String :=
  ["theft", "criminal damage", "assault", "criminal trespass"]

/-- `calculateChicagoCrimePriority(crime)` (src/server/index.js, lines
488-510): tiered base 95/75/55/50 on first matching tier, +10 when the
crime is within the last hour of `now` (`Date.now()`), capped at 100. -/
def calculateChicagoCrimePriority (now : ℤ) (crime : ChicagoCrimeRow) : ℤ :=
  let ptype := jsToLower (jsOrS crime.primary_type "")
  let desc := jsToLower (jsOrS crime.description "")
  let priority : ℤ :=
    if chicagoCriticalCrimes.any (fun c => jsIncludes ptype c || jsIncludes desc c) then 95
    else if chicagoHighCrimes.any (fun h => jsIncludes ptype h || jsIncludes desc h) then 75
    else if chicagoMediumCrimes.any (fun m => jsIncludes ptype m || jsIncludes desc m) then 55
    else 50
  let priority :=
    match crime.date with
    | some d => if now - 3600000 < d then priority + 10 else priority
    | none => priority
  min priority 100

/-- A raw Chicago traffic-crash row (fields the scorer reads; integer
fields already passed through `parseInt`, `none` for `NaN`). -/
structure CrashRow where
  injuries_fatal : Option ℤ
  injuries_incapacitating : Option ℤ
  injuries_total : Option ℤ
  hit_and_run_i : Option String
  damage : Option String
deriving DecidableEq

/-- `calculateCrashPriority(crash)` (src/server/index.js, lines 560-571). -/
def calculateCrashPriority (crash : CrashRow) : ℤ :=
  let priority : ℤ :=
    if jsGtZ crash.injuries_fatal 0 then 100
    else if jsGtZ crash.injuries_incapacitating 0 then 90
    else if jsGtZ crash.injuries_total 2 then 80
    else if jsGtZ crash.injuries_total 0 then 70
    else if crash.hit_and_run_i = some "Y" then 75
    else if crash.damage = some "OVER $1,500" then 55
    else 45
  min priority 100

/-- The attribute fields of an Evansville crime feature the scorer reads. -/
structure EvansvilleAttrs where
  mapCrime : Option String
  chrgdesc : Option String
deriving DecidableEq

def evansvilleCriticalCrimes : List String :=
  ["homicide", "murder", "rape", "robbery", "kidnapping", "arson"]

def evansvilleHighCrimes : List String :=
  ["battery", "burglary", "theft", "weapon", "firearm", "intimidation", "assault"]

def evansvilleMediumCrimes : List String :=
  ["criminal mischief", "fraud", "forgery", "trespass"]

/-- `calculateEvansvilleCrimePriority(attrs)` (src/server/index.js, lines
963-978): tiered base 95/75/55/50, capped at 100. -/
def calculateEvansvilleCrimePriority (attrs : EvansvilleAttrs) : ℤ :=
  let crime := jsToLower (jsOrS attrs.mapCrime "")
  let desc := jsToLower (jsOrS attrs.chrgdesc "")
  let priority : ℤ :=
    if evansvilleCriticalCrimes.any (fun c => jsIncludes crime c || jsIncludes desc c) then 95
    else if evansvilleHighCrimes.any (fun h => jsIncludes crime h || jsIncludes desc h) then 75
    else if evansvilleMediumCrimes.any (fun m => jsIncludes crime m || jsIncludes desc m) then 55
    else 50
  min priority 100

/-! ## Source adapters (row mappings, src/server/index.js)

Only the pure mapping applied to an already-fetched, already-parsed
provider array is embedded; a network or parse failure of the fetch
itself is the `Except.error` case of the aggregation model below. -/

/-- A raw NYC DOT camera row (`parseFloat` already applied to the
coordinate strings). -/
structure NYCCamRow where
  cameraid : Option String
  name : Option String
  borough : Option String
  latitude : Option ℚ
  longitude : Option ℚ
  videourl : Option String
deriving DecidableEq

/-- A normalized camera record. -/
structure Camera where
  id : String
  name : String
  location : String
  lat : ℚ
  lng : ℚ
  url : String
  streamUrl : Option String
  status : String
  source : String
  viewers : ℤ
deriving DecidableEq

/-- An unguarded `${x}` template interpolation of a possibly-undefined
string: JS renders `undefined` as the text `"undefined"`. -/
def interpS (o : Option String) : String :=
  match o with
  | some s => s
  | none => "undefined"

/-- The mapping step of `fetchNYCCameras` (src/server/index.js, lines
34-69): no coordinate filter; a missing or unparseable coordinate is
replaced by the city-center default `40.7128` / `-74.0060`.  `rand`
models `Math.random()`-derived viewer counts by index. -/
def mapNYCCameras (rand : ℕ → ℤ) (rows : List NYCCamRow) : List Camera :=
  rows.enum.map fun p =>
    { id := "nyc-" ++ jsOrS p.2.cameraid (toString p.1)
      name := jsOrS p.2.name ("NYC Camera " ++ toString (p.1 + 1))
      location := jsOrS p.2.borough "New York"
      lat := jsOrQ p.2.latitude 40.7128
      lng := jsOrQ p.2.longitude (-74.0060)
      url := "https://webcams.nyctmc.org/multiviewer/data/" ++ interpS p.2.cameraid ++
        "/snapshot.jpg"
      streamUrl :=
        match p.2.videourl with
        | some s => if s = "" then none else some s
        | none => none
      status := "active"
      source := "NYC DOT"
      viewers := rand p.1 }

/-- A normalized incident record (server shape). -/
structure Incident where
  id : String
  title : String
  description : String
  address : String
  lat : Option ℚ
  lng : Option ℚ
  time : Option String
  source : String
  category : Option String
  status : String
  priority : ℤ
deriving DecidableEq

/-- The mapping-and-filter step of `fetchNYC311Incidents`
(src/server/index.js, lines 362-397): rows are normalized, scored with
`calculatePriority`, then filtered by `i.lat && i.lng`. -/
def mapNYC311Incidents (rows : List NYC311Row) : List Incident :=
  (rows.enum.map fun p =>
    { id := "nyc311-" ++ jsOrS p.2.unique_key (toString p.1)
      title := jsOrS p.2.complaint_type "Unknown Incident"
      description := jsOrS p.2.descriptor ""
      address := jsOrS p.2.incident_address "" ++ ", " ++ jsOrS p.2.city "New York"
      lat := jsOrNullQ p.2.latitude
      lng := jsOrNullQ p.2.longitude
      time := p.2.created_date
      source := "NYC 311"
      category := p.2.complaint_type
      status := jsOrS p.2.status "Open"
      priority := calculatePriority p.2 } : List Incident).filter
    fun i => truthyQ i.lat && truthyQ i.lng

/-! ## The incident aggregation endpoint (`GET /api/incidents`,
src/server/index.js, lines 755-814)

Each adapter's own `try/catch` absorbs a failed fetch into `[]`; the
handler concatenates the adapter results and sorts them by descending
priority. -/

/-- What a single adapter contributes to the aggregate: its record list
on success, `[]` when its network call failed. -/
def adapterOutput : Except String (List Incident) → List Incident
  | .ok records => records
  | .error _ => []

/-- Concatenate the adapter contributions in order and sort by
`(a, b) => b.priority - a.priority`. -/
def mergeIncidents (outs : List (Except String (List Incident))) : List Incident :=
  sortByDesc Incident.priority ((outs.map adapterOutput).flatten)

/-- The outcome of every incident adapter's fetch, for one request. -/
structure AdapterOutcomes where
  nyc311 : Except String (List Incident)
  chi311 : Except String (List Incident)
  chiCrimes : Except String (List Incident)
  chiCrashes : Except String (List Incident)
  chiSpeed : Except String (List Incident)
  chiRedLight : Except String (List Incident)
  chiShots : Except String (List Incident)
  chiBldg : Except String (List Incident)
  evCrimes : Except String (List Incident)
  evShots : Except String (List Incident)

/-- The `GET /api/incidents` handler's routing on `req.query.city`
(already lower-cased): the `chicago` and `evansville` branches query
their own adapter sets; every other value of `city` — including any
unknown code — takes the default all-cities branch. -/
def incidentsResponse (o : AdapterOutcomes) (city : Option String) : List Incident :=
  if city = some "chicago" then
    mergeIncidents
      [o.chiCrimes, o.chiCrashes, o.chi311, o.chiShots, o.chiSpeed, o.chiRedLight, o.chiBldg]
  else if city = some "evansville" then
    mergeIncidents [o.evCrimes, o.evShots]
  else
    mergeIncidents [o.nyc311, o.chiCrimes, o.chiCrashes, o.chi311]

/-! ## The radio-stream endpoint (`GET /api/radio-streams`,
src/server/index.js, lines 1093-1261) -/

/-- A radio stream descriptor. -/
structure RadioStream where
  id : String
  name : String
  description : String
  location : String
  url : String
  stype : String
  city : String
  listeners : ℤ
deriving DecidableEq

/-- The static `allStreams` list; `rand` models the
`Math.random()`-derived listener counts by position. -/
def allStreams (rand : ℕ → ℤ) : List RadioStream :=
  [{ id := "chicago-pd-zone1", name := "Chicago PD Zone 1",
     description := "CPD Zones 1-2 (Districts 1, 18)", location := "Chicago, IL",
     url := "https://broadcastify.cdnstream1.com/17635", stype := "police",
     city := "chicago", listeners := rand 0 },
   { id := "chicago-pd-zone2", name := "Chicago PD Zone 2",
     description := "CPD Zones 3-4 (Districts 2, 21)", location := "Chicago, IL",
     url := "https://broadcastify.cdnstream1.com/32190", stype := "police",
     city := "chicago", listeners := rand 1 },
   { id := "chicago-pd-zone5", name := "Chicago PD Zone 5",
     description := "CPD Zone 5 (Districts 7, 8)", location := "Chicago, IL",
     url := "https://broadcastify.cdnstream1.com/32193", stype := "police",
     city := "chicago", listeners := rand 2 },
   { id := "chicago-pd-zone6", name := "Chicago PD Zone 6",
     description := "CPD Zone 6 (Districts 3, 6)", location := "Chicago, IL",
     url := "https://broadcastify.cdnstream1.com/32194", stype := "police",
     city := "chicago", listeners := rand 3 },
   { id := "chicago-pd-zone10", name := "Chicago PD Zone 10",
     description := "CPD Zone 10 (Districts 10, 11)", location := "Chicago, IL",
     url := "https://broadcastify.cdnstream1.com/32198", stype := "police",
     city := "chicago", listeners := rand 4 },
   { id := "chicago-fire-main", name := "Chicago Fire Main",
     description := "Chicago Fire Department - Main Dispatch", location := "Chicago, IL",
     url := "https://broadcastify.cdnstream1.com/17436", stype := "fire",
     city := "chicago", listeners := rand 5 },
   { id := "chicago-fire-englewood", name := "Chicago Fire Englewood",
     description := "CFD Englewood Fireground", location := "Chicago, IL",
     url := "https://broadcastify.cdnstream1.com/17437", stype := "fire",
     city := "chicago", listeners := rand 6 },
   { id := "chicago-ems", name := "Chicago EMS",
     description := "Chicago Emergency Medical Services", location := "Chicago, IL",
     url := "https://broadcastify.cdnstream1.com/32396", stype := "ems",
     city := "chicago", listeners := rand 7 },
   { id := "cook-county-sheriff", name := "Cook County Sheriff",
     description := "Cook County Sheriff Police", location := "Cook County, IL",
     url := "https://broadcastify.cdnstream1.com/17641", stype := "police",
     city := "chicago", listeners := rand 8 },
   { id := "illinois-state-police", name := "Illinois State Police",
     description := "ISP Chicago District", location := "Illinois",
     url := "https://broadcastify.cdnstream1.com/29105", stype := "police",
     city := "chicago", listeners := rand 9 },
   { id := "nypd-citywide", name := "NYPD Citywide",
     description := "New York Police Department - Citywide Operations",
     location := "New York, NY", url := "https://broadcastify.cdnstream1.com/14439",
     stype := "police", city := "nyc", listeners := rand 10 },
   { id := "nypd-manhattan", name := "NYPD Manhattan",
     description := "NYPD Manhattan Dispatch", location := "Manhattan, NY",
     url := "https://broadcastify.cdnstream1.com/31728", stype := "police",
     city := "nyc", listeners := rand 11 },
   { id := "fdny-citywide", name := "FDNY Citywide",
     description := "Fire Department of New York - Citywide", location := "New York, NY",
     url := "https://broadcastify.cdnstream1.com/14433", stype := "fire",
     city := "nyc", listeners := rand 12 },
   { id := "la-county-fire", name := "LA County Fire",
     description := "Los Angeles County Fire Department", location := "Los Angeles, CA",
     url := "https://broadcastify.cdnstream1.com/29461", stype := "fire",
     city := "la", listeners := rand 13 },
   { id := "lapd-dispatch", name := "LAPD Dispatch",
     description := "Los Angeles Police Department", location := "Los Angeles, CA",
     url := "https://broadcastify.cdnstream1.com/32982", stype := "police",
     city := "la", listeners := rand 14 }]

/-- JS truthiness of `req.query.city?.toLowerCase()`: absent or empty is
falsy. -/
def truthyS (o : Option String) : Bool :=
  match o with
  | some s => decide (s ≠ "")
  | none => false

/-- The `GET /api/radio-streams` handler: the full list with no `city`
parameter; `city=chicago` and every other truthy `city` value filter by
exact `s.city === city` match. -/
def radioStreamsHandler (rand : ℕ → ℤ) (city : Option String) : List RadioStream :=
  if city = some "chicago" then
    (allStreams rand).filter fun s => decide (s.city = "chicago")
  else if truthyS city then
    (allStreams rand).filter fun s => decide (some s.city = city)
  else
    allStreams rand

/-! ## The client-side local analysis (`performLocalAnalysis`,
src/services/dataService.ts, lines 180-229)

The TypeScript `Incident`/`Camera` types carry plain numeric
coordinates; the guards re-check their truthiness. -/

/-- A client-side incident record (the fields `performLocalAnalysis` reads). -/
structure CIncident where
  lat : ℚ
  lng : ℚ
deriving DecidableEq

/-- A client-side camera record (the fields `performLocalAnalysis` reads). -/
structure CCamera where
  lat : ℚ
  lng : ℚ
  viewers : ℚ
deriving DecidableEq

/-- One entry of the client-side `clusters` record. -/
structure CCluster where
  incidents : List CIncident
  cameras : List CCamera
  lat : ℚ
  lng : ℚ
deriving DecidableEq

/-- A client-side hotspot. -/
structure CHotspot where
  lat : ℚ
  lng : ℚ
  intensity : ℚ
  description : String
  incidentCount : ℕ
  cameraCount : ℕ
deriving DecidableEq

/-- The client-side analysis result (`analyzedAt` omitted; `correlations`
is always the empty array). -/
structure CAnalysisResult where
  hotspots : List CHotspot
  correlations : List String
  threatLevel : String
  summary : String
deriving DecidableEq

abbrev CClusterMap := List ((ℚ × ℚ) × CCluster)

/-- One step of `incidents.forEach(...)` (guard `inc.lat && inc.lng`). -/
def cStepIncident (acc : CClusterMap) (i : CIncident) : CClusterMap :=
  if i.lat = 0 ∨ i.lng = 0 then acc
  else
    upsert (cellKey i.lat i.lng)
      { incidents := [i], cameras := [], lat := i.lat, lng := i.lng }
      (fun c => { c with incidents := c.incidents ++ [i] }) acc

/-- One step of `cameras.filter(c => c.viewers > 50).forEach(...)`
(guard `cam.lat && cam.lng`). -/
def cStepCamera (acc : CClusterMap) (cam : CCamera) : CClusterMap :=
  if cam.lat = 0 ∨ cam.lng = 0 then acc
  else
    upsert (cellKey cam.lat cam.lng)
      { incidents := [], cameras := [cam], lat := cam.lat, lng := cam.lng }
      (fun c => { c with cameras := c.cameras ++ [cam] }) acc

/-- The client-side `clusters` record after both passes. -/
def cBuildClusters (incidents : List CIncident) (cameras : List CCamera) : CClusterMap :=
  (cameras.filter fun c => decide (50 < c.viewers)).foldl cStepCamera
    (incidents.foldl cStepIncident [])

/-- The client-side intensity
`Math.min(100, incidents.length * 20 + cameras.length * 10)`. -/
def cClusterIntensity (c : CCluster) : ℚ :=
  min 100 ((c.incidents.length : ℚ) * 20 + (c.cameras.length : ℚ) * 10)

/-- The client-side hotspot pushed for a cluster whose intensity is above
20, `none` otherwise. -/
def cToHotspot (c : CCluster) : Option CHotspot :=
  let intensity := cClusterIntensity c
  if 20 < intensity then
    some
      { lat := c.lat
        lng := c.lng
        intensity := intensity
        description :=
          toString c.incidents.length ++ " incidents, " ++
            toString c.cameras.length ++ " trending cameras"
        incidentCount := c.incidents.length
        cameraCount := c.cameras.length }
  else none

/-- The client-side hotspot list after threshold and sort (not yet sliced). -/
def cSortedHotspots (incidents : List CIncident) (cameras : List CCamera) : List CHotspot :=
  sortByDesc CHotspot.intensity
    (((cBuildClusters incidents cameras).map Prod.snd).filterMap cToHotspot)

/-- `performLocalAnalysis(incidents, cameras)` (src/services/dataService.ts,
lines 180-229): slice to 15; the threat level is `'medium'` exactly when
more than 5 hotspots passed the threshold, never `'high'`. -/
def performLocalAnalysis (incidents : List CIncident) (cameras : List CCamera) :
    CAnalysisResult :=
  let hs := cSortedHotspots incidents cameras
  { hotspots := hs.take 15
    correlations := []
    threatLevel := if 5 < hs.length then "medium" else "low"
    summary :=
      "Identified " ++ toString hs.length ++
        " potential hotspots based on incident and camera activity." }

/-- The mean intensity over a hotspot list, as the claims state it. -/
def meanIntensity (hs : List CHotspot) : ℚ :=
  (hs.map CHotspot.intensity).sum / (hs.length : ℚ)

/-! ## The processing stream of the server clusterer

The two `forEach` passes of `performAlgorithmicAnalysis` process, in
order, every eligible incident and then every eligible camera.  The
fused stream lets the "first record assigned to a grid cell" be stated
as a `find?` over one list. -/

/-- A record the clusterer actually processes, with its extracted
coordinates (and viewer count for cameras). -/
inductive ClusterSource where
  | fromIncident (i : ReqIncident) (la lo : ℚ) : ClusterSource
  | fromCamera (c : ReqCamera) (la lo v : ℚ) : ClusterSource
deriving DecidableEq

def srcLat : ClusterSource → ℚ
  | .fromIncident _ la _ => la
  | .fromCamera _ la _ _ => la

def srcLng : ClusterSource → ℚ
  | .fromIncident _ _ lo => lo
  | .fromCamera _ _ lo _ => lo

/-- The grid cell of a processed record. -/
def srcKey (r : ClusterSource) : ℚ × ℚ := cellKey (srcLat r) (srcLng r)

/-- The records the clusterer processes, in processing order: the
eligible incidents, then the eligible cameras. -/
def clusterStream (incidents : List ReqIncident) (cameras : List ReqCamera) :
    List ClusterSource :=
  (incidents.filterMap fun i => (incCoords i).map fun p => .fromIncident i p.1 p.2) ++
    (cameras.filterMap fun c => (camCoords c).map fun t => .fromCamera c t.1 t.2.1 t.2.2)

/-- One step of the fused pass. -/
def stepSource (acc : ClusterMap) : ClusterSource → ClusterMap
  | .fromIncident i la lo => applyIncident acc i la lo
  | .fromCamera c la lo v => applyCamera acc c la lo v

theorem foldl_stepIncident (incidents : List ReqIncident) (acc : ClusterMap) :
    incidents.foldl stepIncident acc =
      (incidents.filterMap fun i =>
        (incCoords i).map fun p => ClusterSource.fromIncident i p.1 p.2).foldl
        stepSource acc := by
  induction incidents generalizing acc with
  | nil => rfl
  | cons i is ih =>
    cases h : incCoords i with
    | none => simp [List.filterMap_cons, h, stepIncident, ih]
    | some p =>
      obtain ⟨la, lo⟩ := p
      simp [List.filterMap_cons, h, stepIncident, stepSource, ih]

theorem foldl_stepCamera (cameras : List ReqCamera) (acc : ClusterMap) :
    cameras.foldl stepCamera acc =
      (cameras.filterMap fun c =>
        (camCoords c).map fun t => ClusterSource.fromCamera c t.1 t.2.1 t.2.2).foldl
        stepSource acc := by
  induction cameras generalizing acc with
  | nil => rfl
  | cons c cs ih =>
    cases h : camCoords c with
    | none => simp [List.filterMap_cons, h, stepCamera, ih]
    | some t =>
      obtain ⟨la, lo, v⟩ := t
      simp [List.filterMap_cons, h, stepCamera, stepSource, ih]

theorem buildClusters_eq_stream (incidents : List ReqIncident) (cameras : List ReqCamera) :
    buildClusters incidents cameras = (clusterStream incidents cameras).foldl stepSource [] := by
  rw [buildClusters, clusterStream, List.foldl_append, foldl_stepIncident, foldl_stepCamera]

/-- Every cluster of `m` carries the exact coordinates of the first
record of its grid cell in the stream `s`. -/
def anchoredIn (s : List ClusterSource) (m : ClusterMap) : Prop :=
  ∀ kc ∈ m, ∃ r, s.find? (fun x => decide (srcKey x = kc.1)) = some r ∧
    kc.2.lat = srcLat r ∧ kc.2.lng = srcLng r

/-- Every record of the stream `s` already has its grid cell in `m`. -/
def keysCovered (s : List ClusterSource) (m : ClusterMap) : Prop :=
  ∀ x ∈ s, ∃ kc ∈ m, kc.1 = srcKey x

theorem upsert_step_preserves (p : List ClusterSource) (m : ClusterMap) (r : ClusterSource)
    (fresh : Cluster) (upd : Cluster → Cluster)
    (hfl : fresh.lat = srcLat r) (hfg : fresh.lng = srcLng r)
    (hul : ∀ c, (upd c).lat = c.lat) (hug : ∀ c, (upd c).lng = c.lng)
    (ha : anchoredIn p m) (hc : keysCovered p m) :
    anchoredIn (p ++ [r]) (upsert (srcKey r) fresh upd m) ∧
      keysCovered (p ++ [r]) (upsert (srcKey r) fresh upd m) := by
  constructor
  · intro kc hkc
    rcases upsert_mem_cases _ _ _ _ _ hkc with ⟨c, hcm, hval⟩ | ⟨h1, h2, h3⟩
    · obtain ⟨r₀, hfind, hlat, hlng⟩ := ha (kc.1, c) hcm
      refine ⟨r₀, ?_, ?_, ?_⟩
      · rw [List.find?_append, hfind]; rfl
      · rcases hval with h | h
        · rw [h]; exact hlat
        · rw [h, hul c]; exact hlat
      · rcases hval with h | h
        · rw [h]; exact hlng
        · rw [h, hug c]; exact hlng
    · refine ⟨r, ?_, ?_, ?_⟩
      · have hnone : p.find? (fun x => decide (srcKey x = kc.1)) = none := by
          rw [List.find?_eq_none]
          intro x hx hdec
          have hxk : srcKey x = kc.1 := of_decide_eq_true hdec
          obtain ⟨kc', hkc', hkey⟩ := hc x hx
          apply h3 kc'.2
          have : kc' = (srcKey r, kc'.2) := by
            rw [Prod.ext_iff]
            exact ⟨by rw [hkey, hxk, h1], rfl⟩
          rw [← this]
          exact hkc'
        rw [List.find?_append, hnone]
        show List.find? (fun x => decide (srcKey x = kc.1)) [r] = some r
        rw [List.find?_cons_of_pos]
        exact decide_eq_true h1.symm
      · rw [h2, hfl]
      · rw [h2, hfg]
  · intro x hx
    rcases List.mem_append.mp hx with hx | hx
    · obtain ⟨kc, hkc, hkey⟩ := hc x hx
      obtain ⟨c', hc'⟩ := upsert_keeps_key (srcKey r) fresh upd m kc.1 kc.2
        (by rw [show (kc.1, kc.2) = kc from rfl]; exact hkc)
      exact ⟨(kc.1, c'), hc', hkey⟩
    · have hxr : x = r := List.mem_singleton.mp hx
      subst hxr
      obtain ⟨c', hc'⟩ := upsert_new_key (srcKey x) fresh upd m
      exact ⟨(srcKey x, c'), hc', rfl⟩

theorem foldl_stepSource_anchored (s : List ClusterSource) :
    ∀ (p : List ClusterSource) (m : ClusterMap), anchoredIn p m → keysCovered p m →
      anchoredIn (p ++ s) (s.foldl stepSource m) := by
  induction s with
  | nil =>
    intro p m ha _
    simpa using ha
  | cons r rest ih =>
    intro p m ha hc
    have hstep : anchoredIn (p ++ [r]) (stepSource m r) ∧
        keysCovered (p ++ [r]) (stepSource m r) := by
      cases r with
      | fromIncident i la lo =>
        exact upsert_step_preserves p m (.fromIncident i la lo)
          (incUpd i (emptyCluster la lo)) (incUpd i) rfl rfl (fun _ => rfl) (fun _ => rfl)
          ha hc
      | fromCamera c la lo v =>
        exact upsert_step_preserves p m (.fromCamera c la lo v)
          (camUpd c v (emptyCluster la lo)) (camUpd c v) rfl rfl (fun _ => rfl)
          (fun _ => rfl) ha hc
    have := ih (p ++ [r]) (stepSource m r) hstep.1 hstep.2
    rw [List.foldl_cons]
    simpa [List.append_assoc] using this

theorem buildClusters_anchored (incidents : List ReqIncident) (cameras : List ReqCamera) :
    anchoredIn (clusterStream incidents cameras) (buildClusters incidents cameras) := by
  rw [buildClusters_eq_stream]
  have := foldl_stepSource_anchored (clusterStream incidents cameras) [] []
    (fun kc hkc => absurd hkc (List.not_mem_nil _))
    (fun x hx => absurd hx (List.not_mem_nil _))
  simpa using this

/-! ## Membership helpers for the hotspot lists -/

theorem analysis_hotspots_eq (incidents : List ReqIncident) (cameras : List ReqCamera)
    (news : List ReqNews) :
    (performAlgorithmicAnalysis incidents cameras news).hotspots =
      (sortedHotspots incidents cameras).take 20 := rfl

theorem mem_hotspots_raw {incidents : List ReqIncident} {cameras : List ReqCamera}
    {news : List ReqNews} {h : Hotspot}
    (hh : h ∈ (performAlgorithmicAnalysis incidents cameras news).hotspots) :
    h ∈ rawHotspots incidents cameras := by
  rw [analysis_hotspots_eq] at hh
  exact mem_sortByDesc.mp ((List.take_sublist 20 _).mem hh)

theorem mem_rawHotspots_elim {incidents : List ReqIncident} {cameras : List ReqCamera}
    {h : Hotspot} (hh : h ∈ rawHotspots incidents cameras) :
    ∃ kc ∈ buildClusters incidents cameras, toHotspot kc.2 = some h := by
  rw [rawHotspots] at hh
  obtain ⟨c, hc, hsome⟩ := List.mem_filterMap.mp hh
  obtain ⟨kc, hkc, hsnd⟩ := List.mem_map.mp hc
  exact ⟨kc, hkc, by rw [hsnd]; exact hsome⟩

theorem toHotspot_elim {c : Cluster} {h : Hotspot} (hs : toHotspot c = some h) :
    30 < h.intensity ∧ h.intensity = clusterIntensity c ∧ h.lat = c.lat ∧ h.lng = c.lng := by
  rw [toHotspot] at hs
  split at hs
  · rename_i hlt
    injection hs with hs
    subst hs
    exact ⟨hlt, rfl, rfl, rfl⟩
  · exact absurd hs (by simp)

theorem cToHotspot_elim {c : CCluster} {h : CHotspot} (hs : cToHotspot c = some h) :
    20 < h.intensity ∧ h.intensity = cClusterIntensity c := by
  rw [cToHotspot] at hs
  split at hs
  · rename_i hlt
    injection hs with hs
    subst hs
    exact ⟨hlt, rfl⟩
  · exact absurd hs (by simp)

/-! ## The processing stream of the client clusterer

`performLocalAnalysis` builds its `clusters` record the same way as the
server: every eligible incident, then every camera that passed the
`viewers > 50` filter, in order. -/

/-- A record the client clusterer actually processes. -/
inductive CClusterSource where
  | fromIncident (i : CIncident) : CClusterSource
  | fromCamera (c : CCamera) : CClusterSource
deriving DecidableEq

def cSrcLat : CClusterSource → ℚ
  | .fromIncident i => i.lat
  | .fromCamera c => c.lat

def cSrcLng : CClusterSource → ℚ
  | .fromIncident i => i.lng
  | .fromCamera c => c.lng

/-- The grid cell of a processed client record. -/
def cSrcKey (r : CClusterSource) : ℚ × ℚ := cellKey (cSrcLat r) (cSrcLng r)

/-- The records the client clusterer processes, in processing order: the
eligible incidents, then the eligible filtered cameras. -/
def cClusterStream (incidents : List CIncident) (cameras : List CCamera) :
    List CClusterSource :=
  (incidents.filterMap fun i =>
    if i.lat = 0 ∨ i.lng = 0 then none else some (.fromIncident i)) ++
    ((cameras.filter fun c => decide (50 < c.viewers)).filterMap fun c =>
      if c.lat = 0 ∨ c.lng = 0 then none else some (.fromCamera c))

/-- One step of the fused client pass. -/
def cStepSource (acc : CClusterMap) : CClusterSource → CClusterMap
  | .fromIncident i =>
      upsert (cellKey i.lat i.lng)
        { incidents := [i], cameras := [], lat := i.lat, lng := i.lng }
        (fun c => { c with incidents := c.incidents ++ [i] }) acc
  | .fromCamera cam =>
      upsert (cellKey cam.lat cam.lng)
        { incidents := [], cameras := [cam], lat := cam.lat, lng := cam.lng }
        (fun c => { c with cameras := c.cameras ++ [cam] }) acc

theorem cFoldl_stepIncident (incidents : List CIncident) (acc : CClusterMap) :
    incidents.foldl cStepIncident acc =
      (incidents.filterMap fun i =>
        if i.lat = 0 ∨ i.lng = 0 then none
        else some (CClusterSource.fromIncident i)).foldl cStepSource acc := by
  induction incidents generalizing acc with
  | nil => rfl
  | cons i is ih =>
    by_cases h : i.lat = 0 ∨ i.lng = 0
    · simp [List.filterMap_cons, h, cStepIncident, ih]
    · simp [List.filterMap_cons, h, cStepIncident, cStepSource, ih]

theorem cFoldl_stepCamera (cameras : List CCamera) (acc : CClusterMap) :
    cameras.foldl cStepCamera acc =
      (cameras.filterMap fun c =>
        if c.lat = 0 ∨ c.lng = 0 then none
        else some (CClusterSource.fromCamera c)).foldl cStepSource acc := by
  induction cameras generalizing acc with
  | nil => rfl
  | cons c cs ih =>
    by_cases h : c.lat = 0 ∨ c.lng = 0
    · simp [List.filterMap_cons, h, cStepCamera, ih]
    · simp [List.filterMap_cons, h, cStepCamera, cStepSource, ih]

theorem cBuildClusters_eq_stream (incidents : List CIncident) (cameras : List CCamera) :
    cBuildClusters incidents cameras =
      (cClusterStream incidents cameras).foldl cStepSource [] := by
  rw [cBuildClusters, cClusterStream, List.foldl_append, cFoldl_stepIncident,
    cFoldl_stepCamera]

/-- Every client cluster carries the exact coordinates of the first
record of its grid cell in the stream `s`. -/
def cAnchoredIn (s : List CClusterSource) (m : CClusterMap) : Prop :=
  ∀ kc ∈ m, ∃ r, s.find? (fun x => decide (cSrcKey x = kc.1)) = some r ∧
    kc.2.lat = cSrcLat r ∧ kc.2.lng = cSrcLng r

/-- Every record of the stream `s` already has its grid cell in `m`. -/
def cKeysCovered (s : List CClusterSource) (m : CClusterMap) : Prop :=
  ∀ x ∈ s, ∃ kc ∈ m, kc.1 = cSrcKey x

theorem cUpsert_step_preserves (p : List CClusterSource) (m : CClusterMap)
    (r : CClusterSource) (fresh : CCluster) (upd : CCluster → CCluster)
    (hfl : fresh.lat = cSrcLat r) (hfg : fresh.lng = cSrcLng r)
    (hul : ∀ c, (upd c).lat = c.lat) (hug : ∀ c, (upd c).lng = c.lng)
    (ha : cAnchoredIn p m) (hc : cKeysCovered p m) :
    cAnchoredIn (p ++ [r]) (upsert (cSrcKey r) fresh upd m) ∧
      cKeysCovered (p ++ [r]) (upsert (cSrcKey r) fresh upd m) := by
  constructor
  · intro kc hkc
    rcases upsert_mem_cases _ _ _ _ _ hkc with ⟨c, hcm, hval⟩ | ⟨h1, h2, h3⟩
    · obtain ⟨r₀, hfind, hlat, hlng⟩ := ha (kc.1, c) hcm
      refine ⟨r₀, ?_, ?_, ?_⟩
      · rw [List.find?_append, hfind]; rfl
      · rcases hval with h | h
        · rw [h]; exact hlat
        · rw [h, hul c]; exact hlat
      · rcases hval with h | h
        · rw [h]; exact hlng
        · rw [h, hug c]; exact hlng
    · refine ⟨r, ?_, ?_, ?_⟩
      · have hnone : p.find? (fun x => decide (cSrcKey x = kc.1)) = none := by
          rw [List.find?_eq_none]
          intro x hx hdec
          have hxk : cSrcKey x = kc.1 := of_decide_eq_true hdec
          obtain ⟨kc', hkc', hkey⟩ := hc x hx
          apply h3 kc'.2
          have : kc' = (cSrcKey r, kc'.2) := by
            rw [Prod.ext_iff]
            exact ⟨by rw [hkey, hxk, h1], rfl⟩
          rw [← this]
          exact hkc'
        rw [List.find?_append, hnone]
        show List.find? (fun x => decide (cSrcKey x = kc.1)) [r] = some r
        rw [List.find?_cons_of_pos]
        exact decide_eq_true h1.symm
      · rw [h2, hfl]
      · rw [h2, hfg]
  · intro x hx
    rcases List.mem_append.mp hx with hx | hx
    · obtain ⟨kc, hkc, hkey⟩ := hc x hx
      obtain ⟨c', hc'⟩ := upsert_keeps_key (cSrcKey r) fresh upd m kc.1 kc.2
        (by rw [show (kc.1, kc.2) = kc from rfl]; exact hkc)
      exact ⟨(kc.1, c'), hc', hkey⟩
    · have hxr : x = r := List.mem_singleton.mp hx
      subst hxr
      obtain ⟨c', hc'⟩ := upsert_new_key (cSrcKey x) fresh upd m
      exact ⟨(cSrcKey x, c'), hc', rfl⟩

theorem cFoldl_stepSource_anchored (s : List CClusterSource) :
    ∀ (p : List CClusterSource) (m : CClusterMap), cAnchoredIn p m → cKeysCovered p m →
      cAnchoredIn (p ++ s) (s.foldl cStepSource m) := by
  induction s with
  | nil =>
    intro p m ha _
    simpa using ha
  | cons r rest ih =>
    intro p m ha hc
    have hstep : cAnchoredIn (p ++ [r]) (cStepSource m r) ∧
        cKeysCovered (p ++ [r]) (cStepSource m r) := by
      cases r with
      | fromIncident i =>
        exact cUpsert_step_preserves p m (.fromIncident i)
          { incidents := [i], cameras := [], lat := i.lat, lng := i.lng }
          (fun c => { c with incidents := c.incidents ++ [i] }) rfl rfl
          (fun _ => rfl) (fun _ => rfl) ha hc
      | fromCamera cam =>
        exact cUpsert_step_preserves p m (.fromCamera cam)
          { incidents := [], cameras := [cam], lat := cam.lat, lng := cam.lng }
          (fun c => { c with cameras := c.cameras ++ [cam] }) rfl rfl
          (fun _ => rfl) (fun _ => rfl) ha hc
    have := ih (p ++ [r]) (cStepSource m r) hstep.1 hstep.2
    rw [List.foldl_cons]
    simpa [List.append_assoc] using this

theorem cBuildClusters_anchored (incidents : List CIncident) (cameras : List CCamera) :
    cAnchoredIn (cClusterStream incidents cameras) (cBuildClusters incidents cameras) := by
  rw [cBuildClusters_eq_stream]
  have := cFoldl_stepSource_anchored (cClusterStream incidents cameras) [] []
    (fun kc hkc => absurd hkc (List.not_mem_nil _))
    (fun x hx => absurd hx (List.not_mem_nil _))
  simpa using this

theorem cToHotspot_coords {c : CCluster} {h : CHotspot} (hs : cToHotspot c = some h) :
    h.lat = c.lat ∧ h.lng = c.lng := by
  rw [cToHotspot] at hs
  split at hs
  · injection hs with hs
    subst hs
    exact ⟨rfl, rfl⟩
  · exact absurd hs (by simp)

theorem mem_local_hotspots_elim {ci : List CIncident} {cc : List CCamera} {h : CHotspot}
    (hh : h ∈ (performLocalAnalysis ci cc).hotspots) :
    ∃ kc ∈ cBuildClusters ci cc, cToHotspot kc.2 = some h := by
  have h1 : h ∈ cSortedHotspots ci cc := by
    have heq : (performLocalAnalysis ci cc).hotspots = (cSortedHotspots ci cc).take 15 := rfl
    rw [heq] at hh
    exact (List.take_sublist 15 _).mem hh
  rw [cSortedHotspots] at h1
  obtain ⟨c, hcmem, hsome⟩ := List.mem_filterMap.mp (mem_sortByDesc.mp h1)
  obtain ⟨kc, hkc, hsnd⟩ := List.mem_map.mp hcmem
  exact ⟨kc, hkc, by rw [hsnd]; exact hsome⟩

/-! ## Bound and evaluation helpers -/

theorem le_foldl_add_if (l : List String) (g : String → Bool) (c : ℤ) (hc : 0 ≤ c) :
    ∀ p : ℤ, p ≤ l.foldl (fun a t => if g t then a + c else a) p := by
  induction l with
  | nil => intro p; exact le_refl p
  | cons t ts ih =>
    intro p
    rw [List.foldl_cons]
    refine le_trans ?_ (ih _)
    split
    · linarith
    · exact le_refl p

theorem calculatePriority_ge_50 (r : NYC311Row) : 50 ≤ calculatePriority r := by
  simp only [calculatePriority]
  generalize jsToLower (jsOrS r.complaint_type "" ++ " " ++ jsOrS r.descriptor "") = text
  have h1 := le_foldl_add_if criticalTerms (fun term => jsIncludes text term) 40 (by norm_num) 50
  have h2 := le_foldl_add_if highTerms (fun term => jsIncludes text term) 20 (by norm_num)
    (criticalTerms.foldl (fun p term => if jsIncludes text term then p + 40 else p) 50)
  refine le_min ?_ (by norm_num)
  split <;> linarith

theorem calculatePriority_le_100 (r : NYC311Row) : calculatePriority r ≤ 100 := by
  simp only [calculatePriority]
  exact min_le_right _ _

theorem chicagoPriority_bounds (now : ℤ) (cr : ChicagoCrimeRow) :
    0 ≤ calculateChicagoCrimePriority now cr ∧ calculateChicagoCrimePriority now cr ≤ 100 := by
  obtain ⟨pt, pd, dt⟩ := cr
  simp only [calculateChicagoCrimePriority]
  refine ⟨?_, min_le_right _ _⟩
  rcases dt with _ | d
  · refine le_min ?_ (by norm_num)
    split_ifs <;> norm_num
  · refine le_min ?_ (by norm_num)
    split_ifs <;> try norm_num
    all_goals split_ifs <;> norm_num

theorem crashPriority_bounds (crash : CrashRow) :
    0 ≤ calculateCrashPriority crash ∧ calculateCrashPriority crash ≤ 100 := by
  simp only [calculateCrashPriority]
  refine ⟨le_min ?_ (by norm_num), min_le_right _ _⟩
  split_ifs <;> norm_num

theorem evansvillePriority_bounds (ev : EvansvilleAttrs) :
    0 ≤ calculateEvansvilleCrimePriority ev ∧ calculateEvansvilleCrimePriority ev ≤ 100 := by
  simp only [calculateEvansvilleCrimePriority]
  refine ⟨le_min ?_ (by norm_num), min_le_right _ _⟩
  split_ifs <;> norm_num

theorem hotspot_mem_bounds {incidents : List ReqIncident} {cameras : List ReqCamera}
    {news : List ReqNews} {h : Hotspot}
    (hh : h ∈ (performAlgorithmicAnalysis incidents cameras news).hotspots) :
    30 < h.intensity ∧ h.intensity ≤ 100 := by
  obtain ⟨kc, _, hsome⟩ := mem_rawHotspots_elim (mem_hotspots_raw hh)
  obtain ⟨h30, heq, _, _⟩ := toHotspot_elim hsome
  refine ⟨h30, ?_⟩
  rw [heq, clusterIntensity]
  exact min_le_left _ _

theorem local_hotspot_mem_bounds {ci : List CIncident} {cc : List CCamera} {h : CHotspot}
    (hh : h ∈ (performLocalAnalysis ci cc).hotspots) :
    20 < h.intensity ∧ h.intensity ≤ 100 := by
  have h1 : h ∈ cSortedHotspots ci cc := by
    have heq : (performLocalAnalysis ci cc).hotspots = (cSortedHotspots ci cc).take 15 := rfl
    rw [heq] at hh
    exact (List.take_sublist 15 _).mem hh
  rw [cSortedHotspots] at h1
  obtain ⟨c, _, hsome⟩ := List.mem_filterMap.mp (mem_sortByDesc.mp h1)
  obtain ⟨h20, heq⟩ := cToHotspot_elim hsome
  refine ⟨h20, ?_⟩
  rw [heq, cClusterIntensity]
  exact min_le_left _ _

theorem foldl_add_intensity (hs : List Hotspot) :
    ∀ a : ℚ, hs.foldl (fun s h => s + h.intensity) a = a + (hs.map Hotspot.intensity).sum := by
  induction hs with
  | nil => intro a; simp
  | cons h t ih =>
    intro a
    rw [List.foldl_cons, ih, List.map_cons, List.sum_cons]
    ring

theorem calculatePriority_empty (r : NYC311Row) (h1 : jsOrS r.complaint_type "" = "")
    (h2 : jsOrS r.descriptor "" = "") :
    calculatePriority r = if r.status = some "Open" then 60 else 50 := by
  by_cases hs : r.status = some "Open"
  · simp only [calculatePriority, h1, h2, hs, if_true]
    decide
  · simp only [calculatePriority, h1, h2, hs, if_false]
    decide

theorem chicagoPriority_empty (now : ℤ) (cr : ChicagoCrimeRow)
    (h3 : jsOrS cr.primary_type "" = "") (h4 : jsOrS cr.description "" = "") :
    calculateChicagoCrimePriority now cr =
      match cr.date with
      | some d => if now - 3600000 < d then 60 else 50
      | none => 50 := by
  rcases hd : cr.date with _ | d
  · simp only [calculateChicagoCrimePriority, h3, h4, hd]
    decide
  · by_cases hlt : now - 3600000 < d
    · simp only [calculateChicagoCrimePriority, h3, h4, hd, hlt, if_true]
      decide
    · simp only [calculateChicagoCrimePriority, h3, h4, hd, hlt, if_false]
      decide

theorem countP_enumFrom_snd {α : Type*} (q : α → Bool) :
    ∀ (n : ℕ) (l : List α), (List.enumFrom n l).countP (fun p => q p.2) = l.countP q := by
  intro n l
  induction l generalizing n with
  | nil => rfl
  | cons a t ih => simp [List.enumFrom, List.countP_cons, ih]

/-! ## The claims -/

/-- Claim C1: for every input incident list and camera list (with
arbitrary, possibly negative, priority and viewers values), every
priority returned by the Priority Scorer functions and every intensity
of every hotspot returned by the Hotspot Clusterer lies within
`[0, 100]`. -/
theorem priority_and_intensity_in_range :
    ∀ (r : NYC311Row) (now : ℤ) (cr : ChicagoCrimeRow) (crash : CrashRow)
      (ev : EvansvilleAttrs) (incidents : List ReqIncident) (cameras : List ReqCamera)
      (news : List ReqNews) (ci : List CIncident) (cc : List CCamera),
      (0 ≤ calculatePriority r ∧ calculatePriority r ≤ 100) ∧
      (0 ≤ calculateChicagoCrimePriority now cr ∧ calculateChicagoCrimePriority now cr ≤ 100) ∧
      (0 ≤ calculateCrashPriority crash ∧ calculateCrashPriority crash ≤ 100) ∧
      (0 ≤ calculateEvansvilleCrimePriority ev ∧ calculateEvansvilleCrimePriority ev ≤ 100) ∧
      (∀ h ∈ (performAlgorithmicAnalysis incidents cameras news).hotspots,
        0 ≤ h.intensity ∧ h.intensity ≤ 100) ∧
      (∀ h ∈ (performLocalAnalysis ci cc).hotspots, 0 ≤ h.intensity ∧ h.intensity ≤ 100) := by
  intro r now cr crash ev incidents cameras news ci cc
  refine ⟨⟨le_trans (by norm_num) (calculatePriority_ge_50 r), calculatePriority_le_100 r⟩,
    chicagoPriority_bounds now cr, crashPriority_bounds crash, evansvillePriority_bounds ev,
    ?_, ?_⟩
  · intro h hh
    obtain ⟨h30, h100⟩ := hotspot_mem_bounds hh
    exact ⟨le_of_lt (lt_trans (by norm_num) h30), h100⟩
  · intro h hh
    obtain ⟨h20, h100⟩ := local_hotspot_mem_bounds hh
    exact ⟨le_of_lt (lt_trans (by norm_num) h20), h100⟩

/-- Claim C4: the returned hotspot list contains only grid cells whose
intensity is above the intensity threshold (30 on the server, 20 in the
client fallback — both within the claimed 20-30 range), is sorted in
descending order of intensity, and is capped (at 20 on the server and 15
in the client fallback — both within the claimed 15-20 range). -/
theorem hotspots_filtered_sorted_capped :
    ∀ (incidents : List ReqIncident) (cameras : List ReqCamera) (news : List ReqNews)
      (ci : List CIncident) (cc : List CCamera),
      (∀ h ∈ (performAlgorithmicAnalysis incidents cameras news).hotspots,
        (30:ℚ) < h.intensity) ∧
      SortedDescBy Hotspot.intensity
        (performAlgorithmicAnalysis incidents cameras news).hotspots ∧
      (performAlgorithmicAnalysis incidents cameras news).hotspots.length ≤ 20 ∧
      (∀ h ∈ (performLocalAnalysis ci cc).hotspots, (20:ℚ) < h.intensity) ∧
      SortedDescBy CHotspot.intensity (performLocalAnalysis ci cc).hotspots ∧
      (performLocalAnalysis ci cc).hotspots.length ≤ 15 := by
  intro incidents cameras news ci cc
  refine ⟨fun h hh => (hotspot_mem_bounds hh).1, ?_, ?_,
    fun h hh => (local_hotspot_mem_bounds hh).1, ?_, ?_⟩
  · rw [analysis_hotspots_eq]
    exact List.Pairwise.sublist (List.take_sublist 20 _)
      (sortByDesc_pairwise Hotspot.intensity _)
  · rw [analysis_hotspots_eq]
    exact List.length_take_le _ _
  · show List.Pairwise _ ((cSortedHotspots ci cc).take 15)
    exact List.Pairwise.sublist (List.take_sublist 15 _)
      (sortByDesc_pairwise CHotspot.intensity _)
  · show ((cSortedHotspots ci cc).take 15).length ≤ 15
    exact List.length_take_le _ _

/-- Claim C10: each hotspot emitted by the Hotspot Clusterer — the
server's `performAlgorithmicAnalysis` and the client fallback
`performLocalAnalysis` alike — carries as its lat/lng the exact
(unrounded) coordinates of the first record (incident or qualifying
camera) assigned to its grid cell: the record `r` found by `find?` is
the first element of the processing stream whose grid-cell key equals
`r`'s own (and hence the hotspot's) key. -/
theorem hotspot_coords_from_first_record :
    ∀ (incidents : List ReqIncident) (cameras : List ReqCamera) (news : List ReqNews)
      (ci : List CIncident) (cc : List CCamera),
      (∀ h ∈ (performAlgorithmicAnalysis incidents cameras news).hotspots,
        ∃ r, (clusterStream incidents cameras).find?
            (fun x => decide (srcKey x = srcKey r)) = some r ∧
          h.lat = srcLat r ∧ h.lng = srcLng r) ∧
      (∀ h ∈ (performLocalAnalysis ci cc).hotspots,
        ∃ r, (cClusterStream ci cc).find?
            (fun x => decide (cSrcKey x = cSrcKey r)) = some r ∧
          h.lat = cSrcLat r ∧ h.lng = cSrcLng r) := by
  intro incidents cameras news ci cc
  constructor
  · intro h hh
    obtain ⟨kc, hkc, hsome⟩ := mem_rawHotspots_elim (mem_hotspots_raw hh)
    obtain ⟨_, _, hlat, hlng⟩ := toHotspot_elim hsome
    obtain ⟨r, hfind, hclat, hclng⟩ := buildClusters_anchored incidents cameras kc hkc
    have hp := List.find?_some hfind
    have hkey : srcKey r = kc.1 := of_decide_eq_true hp
    refine ⟨r, ?_, by rw [hlat, hclat], by rw [hlng, hclng]⟩
    rw [hkey]
    exact hfind
  · intro h hh
    obtain ⟨kc, hkc, hsome⟩ := mem_local_hotspots_elim hh
    obtain ⟨hlat, hlng⟩ := cToHotspot_coords hsome
    obtain ⟨r, hfind, hclat, hclng⟩ := cBuildClusters_anchored ci cc kc hkc
    have hp := List.find?_some hfind
    have hkey : cSrcKey r = kc.1 := of_decide_eq_true hp
    refine ⟨r, ?_, by rw [hlat, hclat], by rw [hlng, hclng]⟩
    rw [hkey]
    exact hfind

/-- Claim C2: whenever the generative-AI call is unavailable, errors, or
returns text from which no JSON object can be parsed, the response is
`200 OK` with exactly the local algorithm's result on the request's
records — no error is surfaced. -/
theorem analyze_hotspots_fallback (g : GeminiOutcome) (incidents : List ReqIncident)
    (cameras : List ReqCamera) (news : List ReqNews) (hg : isFallback g = true) :
    analyzeHotspotsHandler g (some incidents) (some cameras) (some news) =
      .ok (performAlgorithmicAnalysis incidents cameras news) := by
  cases g with
  | noKey => rfl
  | callError m => rfl
  | noJsonMatch t => rfl
  | parseError t => rfl
  | parsed a => exact absurd hg (by simp [isFallback])

/-- Witness for C2 at a concrete fallback outcome and request. -/
theorem analyze_hotspots_fallback_witness :
    analyzeHotspotsHandler .noKey (some []) (some []) (some []) =
      .ok (performAlgorithmicAnalysis [] [] []) :=
  analyze_hotspots_fallback .noKey [] [] [] rfl

/-- Claim C7: when one adapter's fetch fails (`Except.error`), the
aggregate contains exactly the surviving adapters' records (the failed
adapter contributes `[]`), every record of every other adapter is in the
merged result, and the result is sorted by descending priority. -/
theorem failed_adapter_excluded :
    ∀ (outs : List (Except String (List Incident))) (k : Fin outs.length) (e : String),
      outs.get k = .error e →
      (mergeIncidents outs).Perm ((outs.map adapterOutput).flatten) ∧
      adapterOutput (outs.get k) = [] ∧
      SortedDescBy Incident.priority (mergeIncidents outs) ∧
      (∀ (j : Fin outs.length) (x : Incident),
        x ∈ adapterOutput (outs.get j) → x ∈ mergeIncidents outs) := by
  intro outs k e hk
  refine ⟨sortByDesc_perm _ _, by rw [hk]; rfl, sortByDesc_pairwise _ _, ?_⟩
  intro j x hx
  have h1 : adapterOutput (outs.get j) ∈ outs.map adapterOutput :=
    List.mem_map_of_mem adapterOutput (List.get_mem outs j.1 j.2)
  exact (sortByDesc_perm Incident.priority _).mem_iff.mpr
    (List.mem_flatten.mpr ⟨adapterOutput (outs.get j), h1, hx⟩)

/-- A concrete incident for the C7 witness. -/
def w7Incident : Incident :=
  { id := "a", title := "t", description := "", address := "", lat := none, lng := none,
    time := none, source := "s", category := none, status := "Open", priority := 60 }

/-- A concrete set of adapter outcomes in which the first adapter's
fetch failed and the rest succeeded. -/
def w7Outs : List (Except String (List Incident)) :=
  [.error "network", .ok [w7Incident], .ok [], .ok []]

/-- Witness for C7 at a concrete failing adapter. -/
theorem failed_adapter_excluded_witness :
    (mergeIncidents w7Outs).Perm ((w7Outs.map adapterOutput).flatten) ∧
    adapterOutput (w7Outs.get ⟨0, by decide⟩) = [] ∧
    SortedDescBy Incident.priority (mergeIncidents w7Outs) ∧
    (∀ (j : Fin w7Outs.length) (x : Incident),
      x ∈ adapterOutput (w7Outs.get j) → x ∈ mergeIncidents w7Outs) :=
  failed_adapter_excluded w7Outs ⟨0, by decide⟩ "network" rfl

/-! ## Concrete evaluation: the single-incident input of C3 -/

/-- The spec's example incident: `(41.87, -87.63)`, priority 95. -/
def c3Incident : ReqIncident :=
  { lat := some (4187/100), lng := some (-8763/100), priority := some 95, title := none }

/-- The cluster the example incident produces. -/
def c3Cluster : Cluster :=
  { incidents := [c3Incident], cameras := [], lat := 4187/100, lng := -8763/100,
    totalPriority := 95 }

theorem c3_buildClusters :
    buildClusters [c3Incident] [] = [(cellKey (4187/100) (-8763/100), c3Cluster)] := by
  norm_num [buildClusters, stepIncident, incCoords, c3Incident, applyIncident, upsert,
    incUpd, emptyCluster, jsOrQ, c3Cluster]

/-- The hotspot the example incident produces. -/
def c3Hotspot : Hotspot :=
  { lat := 4187/100, lng := -8763/100, intensity := 95/2, incidentCount := 1,
    cameraCount := 0, description := "1 incidents, 0 active cameras",
    topIncident := "High camera activity" }

theorem c3_toHotspot : toHotspot c3Cluster = some c3Hotspot := by
  have hi : clusterIntensity c3Cluster = 95/2 := by
    norm_num [clusterIntensity, c3Cluster, min_def]
  simp only [toHotspot, hi]
  rw [if_pos (by norm_num : (30:ℚ) < 95/2)]
  rfl

theorem c3_hotspots_eval :
    (performAlgorithmicAnalysis [c3Incident] [] []).hotspots = [c3Hotspot] := by
  rw [analysis_hotspots_eq]
  have hraw : rawHotspots [c3Incident] [] = [c3Hotspot] := by
    rw [rawHotspots, c3_buildClusters]
    simp [List.filterMap_cons, c3_toHotspot]
  rw [sortedHotspots, hraw]
  rfl

/-- Claim C3: for the input of exactly one incident at
`(41.87, -87.63)` with priority 95 and no cameras, the clusterer returns
exactly one hotspot, lying in grid cell `(41.9, -87.6)`, with
`incidentCount = 1`, `cameraCount = 0` and
`intensity = min(100, 95/2) = 47.5`. -/
theorem single_incident_cluster :
    (performAlgorithmicAnalysis [c3Incident] [] []).hotspots.length = 1 ∧
    ∀ h ∈ (performAlgorithmicAnalysis [c3Incident] [] []).hotspots,
      cellKey h.lat h.lng = (419/10, -876/10) ∧ h.incidentCount = 1 ∧ h.cameraCount = 0 ∧
      h.intensity = min 100 (95/2) ∧ h.intensity = 95/2 := by
  rw [c3_hotspots_eval]
  refine ⟨rfl, ?_⟩
  intro h hh
  rw [List.mem_singleton] at hh
  subst hh
  exact ⟨by norm_num [cellKey, jsRound, c3Hotspot], rfl, rfl,
    by norm_num [c3Hotspot, min_def], rfl⟩

/-! ## Claim C5: the threat-level rules -/

/-- Claim C5 (amended): the server-side clusterer derives the threat
level from the mean intensity over all threshold-passing hotspots
(`> 70` high, `> 40` medium, else low); the client-side fallback instead
returns `medium` exactly when more than 5 hotspots passed the threshold,
and never `high`. -/
theorem threat_level_rules :
    ∀ (incidents : List ReqIncident) (cameras : List ReqCamera) (news : List ReqNews)
      (ci : List CIncident) (cc : List CCamera),
      ((performAlgorithmicAnalysis incidents cameras news).threatLevel =
        (let hs := sortedHotspots incidents cameras
         let avg : ℚ :=
           if 0 < hs.length then (hs.map Hotspot.intensity).sum / (hs.length : ℚ) else 0
         if 70 < avg then "high" else if 40 < avg then "medium" else "low")) ∧
      ((performLocalAnalysis ci cc).threatLevel =
        if 5 < (cSortedHotspots ci cc).length then "medium" else "low") := by
  intro incidents cameras news ci cc
  constructor
  · show threatLevelOf (avgIntensity (sortedHotspots incidents cameras)) = _
    rw [threatLevelOf, avgIntensity, foldl_add_intensity, zero_add]
  · rfl

/-- The C5 counterexample input: twelve incidents, two in each of six
distinct grid cells. -/
def c5Incidents : List CIncident :=
  [⟨1, 1⟩, ⟨1, 1⟩, ⟨2, 1⟩, ⟨2, 1⟩, ⟨3, 1⟩, ⟨3, 1⟩, ⟨4, 1⟩, ⟨4, 1⟩, ⟨5, 1⟩, ⟨5, 1⟩,
    ⟨6, 1⟩, ⟨6, 1⟩]

/-- The cluster each pair of C5 incidents produces. -/
def c5Cluster (k : ℚ) : CCluster :=
  { incidents := [⟨k, 1⟩, ⟨k, 1⟩], cameras := [], lat := k, lng := 1 }

/-- The hotspot each pair of C5 incidents produces. -/
def c5Hot (k : ℚ) : CHotspot :=
  { lat := k, lng := 1, intensity := 40, description := "2 incidents, 0 trending cameras",
    incidentCount := 2, cameraCount := 0 }

theorem c5_clusters_eval :
    cBuildClusters c5Incidents [] =
      [((1, 1), c5Cluster 1), ((2, 1), c5Cluster 2), ((3, 1), c5Cluster 3),
        ((4, 1), c5Cluster 4), ((5, 1), c5Cluster 5), ((6, 1), c5Cluster 6)] := by
  norm_num [cBuildClusters, cStepIncident, c5Incidents, upsert, cellKey, jsRound,
    c5Cluster, Prod.ext_iff]

theorem c5_toHotspot (k : ℚ) : cToHotspot (c5Cluster k) = some (c5Hot k) := by
  have hi : cClusterIntensity (c5Cluster k) = 40 := by
    norm_num [cClusterIntensity, c5Cluster, min_def]
  simp only [cToHotspot, hi]
  rw [if_pos (by norm_num : (20:ℚ) < 40)]
  simp only [c5Cluster, c5Hot, List.length_cons, List.length_nil, Option.some.injEq,
    CHotspot.mk.injEq]
  refine ⟨trivial, trivial, trivial, ?_, trivial, trivial⟩
  exact rfl

theorem c5_hotspots_eval :
    cSortedHotspots c5Incidents [] =
      [c5Hot 1, c5Hot 2, c5Hot 3, c5Hot 4, c5Hot 5, c5Hot 6] := by
  rw [cSortedHotspots, c5_clusters_eval]
  simp only [List.map_cons, List.map_nil, List.filterMap_cons, c5_toHotspot,
    List.filterMap_nil]
  norm_num [sortByDesc, insertDesc, c5Hot]

/-- Witness for C10 at concrete inputs: on the server side, the single
C3 hotspot's coordinates are those of the first (here: only) record of
its grid cell; on the client side, the first C5 hotspot's coordinates
are those of the first of the two records of its cell. -/
theorem hotspot_coords_from_first_record_witness :
    (∃ r, (clusterStream [c3Incident] []).find?
        (fun x => decide (srcKey x = srcKey r)) = some r ∧
      c3Hotspot.lat = srcLat r ∧ c3Hotspot.lng = srcLng r) ∧
    (∃ r, (cClusterStream c5Incidents []).find?
        (fun x => decide (cSrcKey x = cSrcKey r)) = some r ∧
      (c5Hot 1).lat = cSrcLat r ∧ (c5Hot 1).lng = cSrcLng r) :=
  ⟨(hotspot_coords_from_first_record [c3Incident] [] [] [] []).1 c3Hotspot
      (by rw [c3_hotspots_eval]; exact List.mem_singleton.mpr rfl),
    (hotspot_coords_from_first_record [] [] [] c5Incidents []).2 (c5Hot 1)
      (by
        have hh : (performLocalAnalysis c5Incidents []).hotspots =
            [c5Hot 1, c5Hot 2, c5Hot 3, c5Hot 4, c5Hot 5, c5Hot 6] := by
          show (cSortedHotspots c5Incidents []).take 15 = _
          rw [c5_hotspots_eval]
          exact rfl
        rw [hh]
        simp)⟩

/-- Counterexample to C5 as stated: on `c5Incidents` the client-side
clusterer keeps six hotspots of intensity 40, so the mean intensity is
40 — not above 40, so the claimed rule demands `"low"` — yet the
returned threat level is `"medium"`. -/
theorem threat_level_counterexample :
    meanIntensity (performLocalAnalysis c5Incidents []).hotspots = 40 ∧
    ¬ (40:ℚ) > 40 ∧
    (performLocalAnalysis c5Incidents []).threatLevel = "medium" ∧
    (performLocalAnalysis c5Incidents []).threatLevel ≠ "low" := by
  have hh : (performLocalAnalysis c5Incidents []).hotspots =
      [c5Hot 1, c5Hot 2, c5Hot 3, c5Hot 4, c5Hot 5, c5Hot 6] := by
    show (cSortedHotspots c5Incidents []).take 15 = _
    rw [c5_hotspots_eval]
    exact rfl
  have ht : (performLocalAnalysis c5Incidents []).threatLevel =
      if 5 < (cSortedHotspots c5Incidents []).length then "medium" else "low" := rfl
  refine ⟨?_, by norm_num, ?_, ?_⟩
  · rw [hh]
    norm_num [meanIntensity, c5Hot]
  · rw [ht, c5_hotspots_eval]
    rfl
  · rw [ht, c5_hotspots_eval]
    simp

/-! ## Claim C6: the empty-text baseline -/

/-- A record with empty category and description texts whose status is
`'Open'`. -/
def c6Row : NYC311Row :=
  { unique_key := none, complaint_type := some "", descriptor := some "",
    incident_address := none, city := none, latitude := none, longitude := none,
    created_date := none, status := some "Open" }

/-- Counterexample to C6 as stated: an incident with empty category and
description but status `'Open'` scores 60, not exactly the baseline 50. -/
theorem empty_text_open_counterexample :
    calculatePriority c6Row = 60 ∧ ¬ calculatePriority c6Row = 50 := by
  constructor <;> decide

/-- Claim C6 (amended): with empty category and description texts the
scorers never go below the baseline 50; they return exactly 50 unless a
status/recency bonus applies (`'Open'` status adds 10 in
`calculatePriority`; a crime date within the last hour adds 10 in
`calculateChicagoCrimePriority`), and at most 60. -/
theorem empty_text_baseline :
    ∀ (r : NYC311Row) (now : ℤ) (cr : ChicagoCrimeRow),
      jsOrS r.complaint_type "" = "" → jsOrS r.descriptor "" = "" →
      jsOrS cr.primary_type "" = "" → jsOrS cr.description "" = "" →
      (50 ≤ calculatePriority r ∧ calculatePriority r ≤ 60 ∧
        (r.status ≠ some "Open" → calculatePriority r = 50) ∧
        (r.status = some "Open" → calculatePriority r = 60)) ∧
      (50 ≤ calculateChicagoCrimePriority now cr ∧
        calculateChicagoCrimePriority now cr ≤ 60 ∧
        (cr.date = none → calculateChicagoCrimePriority now cr = 50) ∧
        (∀ d, cr.date = some d → ¬ now - 3600000 < d →
          calculateChicagoCrimePriority now cr = 50) ∧
        (∀ d, cr.date = some d → now - 3600000 < d →
          calculateChicagoCrimePriority now cr = 60)) := by
  intro r now cr h1 h2 h3 h4
  obtain ⟨pt, pd, dt⟩ := cr
  have hcp := calculatePriority_empty r h1 h2
  have hcc := chicagoPriority_empty now ⟨pt, pd, dt⟩ h3 h4
  constructor
  · by_cases hs : r.status = some "Open"
    · rw [hcp, if_pos hs]
      exact ⟨by norm_num, le_refl _, fun hne => absurd hs hne, fun _ => rfl⟩
    · rw [hcp, if_neg hs]
      exact ⟨le_refl _, by norm_num, fun _ => rfl, fun hyes => absurd hyes hs⟩
  · rcases dt with _ | d
    · have hval0 : calculateChicagoCrimePriority now ⟨pt, pd, none⟩ = 50 :=
        hcc.trans (by exact rfl)
      rw [hval0]
      exact ⟨le_refl _, by norm_num, fun _ => rfl,
        fun d hd _ => absurd (show (none : Option ℤ) = some d from hd) (by simp),
        fun d hd _ => absurd (show (none : Option ℤ) = some d from hd) (by simp)⟩
    · have hval : calculateChicagoCrimePriority now ⟨pt, pd, some d⟩ =
          if now - 3600000 < d then 60 else 50 := hcc.trans (by exact rfl)
      by_cases hrec : now - 3600000 < d
      · rw [hval, if_pos hrec]
        refine ⟨by norm_num, le_refl _,
          fun hnone => absurd (show some d = (none : Option ℤ) from hnone) (by simp),
          fun d' hd' hold => ?_, fun d' hd' _ => rfl⟩
        have hdd : d = d' := Option.some.inj (show some d = some d' from hd')
        exact absurd (hdd ▸ hrec) hold
      · rw [hval, if_neg hrec]
        refine ⟨le_refl _, by norm_num,
          fun hnone => absurd (show some d = (none : Option ℤ) from hnone) (by simp),
          fun d' hd' _ => rfl, fun d' hd' hnew => ?_⟩
        have hdd : d = d' := Option.some.inj (show some d = some d' from hd')
        exact absurd (hdd ▸ hnew) hrec

/-- A record with all fields absent, for the C6 witness. -/
def w6Row : NYC311Row :=
  { unique_key := none, complaint_type := none, descriptor := none,
    incident_address := none, city := none, latitude := none, longitude := none,
    created_date := none, status := none }

/-- A crime row with all fields absent, for the C6 witness. -/
def w6Crime : ChicagoCrimeRow := { primary_type := none, description := none, date := none }

/-- Witness for the amended C6 at concrete empty-text records. -/
theorem empty_text_baseline_witness :
    (50 ≤ calculatePriority w6Row ∧ calculatePriority w6Row ≤ 60 ∧
      (w6Row.status ≠ some "Open" → calculatePriority w6Row = 50) ∧
      (w6Row.status = some "Open" → calculatePriority w6Row = 60)) ∧
    (50 ≤ calculateChicagoCrimePriority 0 w6Crime ∧
      calculateChicagoCrimePriority 0 w6Crime ≤ 60 ∧
      (w6Crime.date = none → calculateChicagoCrimePriority 0 w6Crime = 50) ∧
      (∀ d, w6Crime.date = some d → ¬ (0:ℤ) - 3600000 < d →
        calculateChicagoCrimePriority 0 w6Crime = 50) ∧
      (∀ d, w6Crime.date = some d → (0:ℤ) - 3600000 < d →
        calculateChicagoCrimePriority 0 w6Crime = 60)) :=
  empty_text_baseline w6Row 0 w6Crime rfl rfl rfl rfl

/-! ## Claim C8: coordinate filtering in the adapters -/

theorem truthyQ_isSome {o : Option ℚ} (h : truthyQ o = true) : o.isSome = true := by
  cases o with
  | none => cases h
  | some x => rfl

/-- A provider camera row with no coordinates at all. -/
def c8CamRow : NYCCamRow :=
  { cameraid := none, name := none, borough := none, latitude := none, longitude := none,
    videourl := none }

/-- Counterexample to C8 as stated: a NYC camera row lacking lat/lng is
*not* excluded — the adapter keeps it and substitutes the city-center
default coordinates `(40.7128, -74.0060)`. -/
theorem camera_default_coords_counterexample :
    (mapNYCCameras (fun _ => 0) [c8CamRow]).length = 1 ∧
    (mapNYCCameras (fun _ => 0) [c8CamRow]).map Camera.lat = [40.7128] ∧
    (mapNYCCameras (fun _ => 0) [c8CamRow]).map Camera.lng = [-74.0060] :=
  ⟨rfl, rfl, rfl⟩

/-- Claim C8 (amended): the incident adapter keeps exactly the rows with
truthy parsed coordinates, and every incident it returns has defined,
non-null numeric lat and lng; the camera adapter instead keeps every
row, replacing missing coordinates with city defaults. -/
theorem adapters_coordinate_handling :
    ∀ (rows : List NYC311Row) (rand : ℕ → ℤ) (camRows : List NYCCamRow),
      (∀ i ∈ mapNYC311Incidents rows, i.lat.isSome = true ∧ i.lng.isSome = true) ∧
      (mapNYC311Incidents rows).length =
        rows.countP
          (fun r => truthyQ (jsOrNullQ r.latitude) && truthyQ (jsOrNullQ r.longitude)) ∧
      (mapNYCCameras rand camRows).length = camRows.length := by
  intro rows rand camRows
  refine ⟨?_, ?_, ?_⟩
  · intro i hi
    rw [mapNYC311Incidents] at hi
    have hand := (List.mem_filter.mp hi).2
    rw [Bool.and_eq_true] at hand
    exact ⟨truthyQ_isSome hand.1, truthyQ_isSome hand.2⟩
  · rw [mapNYC311Incidents, ← List.countP_eq_length_filter, List.countP_map]
    exact countP_enumFrom_snd
      (fun r => truthyQ (jsOrNullQ r.latitude) && truthyQ (jsOrNullQ r.longitude)) 0 rows
  · rw [mapNYCCameras, List.length_map, List.enum_length]

/-! ## Claim C9: unknown city codes -/

/-- Counterexample to C9 as stated: `GET /api/radio-streams?city=boston`
(an unknown code) returns the empty list, not the 15-entry default
stream list. -/
theorem unknown_city_radio_counterexample :
    radioStreamsHandler (fun _ => 0) (some "boston") = [] ∧
    (radioStreamsHandler (fun _ => 0) none).length = 15 :=
  ⟨rfl, rfl⟩

/-- Claim C9 (amended): an unknown city code falls back to the default
all-cities branch on the incidents endpoint, but on the radio-streams
endpoint it filters by exact match and so returns the empty list (only
an absent or empty `city` yields the default full list). -/
theorem unknown_city_fallback :
    ∀ (o : AdapterOutcomes) (rand : ℕ → ℤ) (c : String),
      c ≠ "chicago" → c ≠ "evansville" → c ≠ "nyc" → c ≠ "la" → c ≠ "" →
      incidentsResponse o (some c) = incidentsResponse o none ∧
      radioStreamsHandler rand (some c) = [] := by
  intro o rand c h1 h2 h3 h4 h5
  constructor
  · simp [incidentsResponse, h1, h2]
  · rw [radioStreamsHandler, if_neg (by simp [h1]), if_pos (by simp [truthyS, h5])]
    rw [List.filter_eq_nil_iff]
    intro s hs
    simp only [allStreams, List.mem_cons, List.not_mem_nil, or_false] at hs
    rcases hs with h | h | h | h | h | h | h | h | h | h | h | h | h | h | h <;> subst h <;>
      · intro hdec
        have hcity := (Option.some.inj (of_decide_eq_true hdec)).symm
        first
        | exact h1 hcity
        | exact h3 hcity
        | exact h4 hcity

/-- Concrete adapter outcomes for the C9 witness. -/
def w9Outcomes : AdapterOutcomes :=
  { nyc311 := .ok [], chi311 := .ok [], chiCrimes := .ok [], chiCrashes := .ok [],
    chiSpeed := .ok [], chiRedLight := .ok [], chiShots := .ok [], chiBldg := .ok [],
    evCrimes := .ok [], evShots := .ok [] }

/-- Witness for the amended C9 at the concrete unknown code `"boston"`. -/
theorem unknown_city_fallback_witness :
    incidentsResponse w9Outcomes (some "boston") = incidentsResponse w9Outcomes none ∧
    radioStreamsHandler (fun _ => 0) (some "boston") = [] :=
  unknown_city_fallback w9Outcomes (fun _ => 0) "boston" (by decide) (by decide) (by decide)
    (by decide) (by decide)

end CivicHunter
